import Mathlib

/-!
Shallow embedding of `datasource/etcd/engine.go` from servicecomb-service-center:
the self-registration manager (`registerService`, `registerInstance`,
`selfHeartBeat`, `autoSelfHeartBeat`, `SelfUnregister`) and the version upgrade
coordinator (`UpgradeVersion`).  Go's global mutable identity (`core.Service`,
`core.Instance`) is threaded explicitly as a `CoreState`; the external registry
collaborators (`core.ServiceAPI`, `discosvc`) become a `Collab` record of
stateful functions; Go's `(resp, err)` pairs become `Option resp × Option err`,
so that a nil-pointer dereference of a nil response is representable as a
distinct `panic` outcome.
-/

namespace SCEngine

/-- Go error values that `engine.go` can return: the sentinel
`datasource.ErrServiceNotExists`, an `errors.New`/`fmt.Errorf` error built from
a registry message, or an opaque error propagated from a collaborator call. -/
inductive GoErr where
  | serviceNotExists
  | registryMsg (msg : String)
  | transport (msg : String)
  deriving DecidableEq, Repr

/-- Outcome of one of the engine's Go functions returning `error`:
`ok` is a nil-error return, `err e` returns the error `e`, and `panic` models a
runtime fault (nil-pointer dereference). -/
inductive Outcome where
  | ok
  | err (e : GoErr)
  | panic
  deriving DecidableEq, Repr

/-- `true` exactly on the `err` constructor. -/
def Outcome.isErr : Outcome → Bool
  | .err _ => true
  | _ => false

/-- `pb.Response`: a structured status code plus human-readable message. -/
structure Response where
  code : Nat
  message : String
  deriving DecidableEq, Repr

/-- `pb.ResponseSuccess`: the specific sentinel code meaning success. -/
def ResponseSuccess : Nat := 0

/-- `pb.MicroService` (the fields `engine.go` reads or writes):
identity fields plus the registry-assigned `serviceId`. -/
structure MicroService where
  environment : String
  appId : String
  serviceName : String
  version : String
  serviceId : String
  deriving DecidableEq, Repr

/-- `pb.MicroServiceInstance` (the fields `engine.go` reads or writes). -/
structure MicroServiceInstance where
  serviceId : String
  instanceId : String
  endpoints : List String
  healthIntervalSec : Nat
  deriving DecidableEq, Repr

/-- The process-wide identity state: Go's `core.Service` and `core.Instance`. -/
structure CoreState where
  service : MicroService
  inst : MicroServiceInstance
  deriving DecidableEq, Repr

/-- Reply to `core.ServiceAPI.Exist`. -/
structure ExistResp where
  response : Response
  serviceId : String
  deriving DecidableEq, Repr

/-- Reply to `core.ServiceAPI.GetOne`. -/
structure GetServiceResp where
  response : Response
  service : MicroService
  deriving DecidableEq, Repr

/-- Reply to `core.ServiceAPI.Create`. -/
structure CreateResp where
  response : Response
  serviceId : String
  deriving DecidableEq, Repr

/-- Reply to `discosvc.RegisterInstance`. -/
structure RegisterInstResp where
  response : Response
  instanceId : String
  deriving DecidableEq, Repr

/-- Reply to `discosvc.Heartbeat` / `discosvc.UnregisterInstance`. -/
structure PlainResp where
  response : Response
  deriving DecidableEq, Repr

/-- A Go call returning `(*R, error)`: the response pointer may be nil
(`none`) and the error may be nil (`none`), independently. -/
def GoRet (R : Type) := Option R × Option GoErr

/-- The external registry collaborators used by `engine.go`, as stateful
functions over an abstract world `σ`.  Each takes the request data the Go code
builds from the core state. -/
structure Collab (σ : Type) where
  existQ : MicroService → σ → GoRet ExistResp × σ
  getOne : String → σ → GoRet GetServiceResp × σ
  createSvc : MicroService → σ → GoRet CreateResp × σ
  regInst : MicroServiceInstance → σ → GoRet RegisterInstResp × σ
  heartbeat : MicroServiceInstance → σ → GoRet PlainResp × σ
  unregInst : MicroServiceInstance → σ → GoRet PlainResp × σ

/-- `registerService` (engine.go lines 64-93): query existence; if the service
already exists, look it up by id and adopt the returned record, signalling
`ErrServiceNotExists` when the lookup reply has a non-success code (the
lookup's own `err` is only logged, never checked); otherwise create a new
service and store the returned id.  Dereferencing a nil reply is `panic`. -/
def registerService {σ : Type} (c : Collab σ) (s : CoreState) (w : σ) :
    Outcome × CoreState × σ :=
  match c.existQ s.service w with
  | ((_, some e), w1) => (.err e, s, w1)
  | ((none, none), w1) => (.panic, s, w1)
  | ((some respE, none), w1) =>
    if respE.response.code = ResponseSuccess then
      match c.getOne respE.serviceId w1 with
      | ((none, _), w2) => (.panic, s, w2)
      | ((some respG, _), w2) =>
        if respG.response.code ≠ ResponseSuccess then
          (.err .serviceNotExists, s, w2)
        else
          (.ok, { s with service := respG.service }, w2)
    else
      match c.createSvc s.service w1 with
      | ((_, some e), w2) => (.err e, s, w2)
      | ((none, none), w2) => (.panic, s, w2)
      | ((some respS, none), w2) =>
        if respS.response.code ≠ ResponseSuccess then
          (.err (.registryMsg respS.response.message), s, w2)
        else
          (.ok, { s with service := { s.service with serviceId := respS.serviceId } }, w2)

/-- The instance record `registerInstance` submits (engine.go lines 96-98):
the current instance with its id cleared and the owning service id attached. -/
def submittedInstance (s : CoreState) : MicroServiceInstance :=
  { s.inst with instanceId := "", serviceId := s.service.serviceId }

/-- The core state after engine.go lines 96-97 cleared the instance id and
attached the owning service id. -/
def clearedState (s : CoreState) : CoreState :=
  { s with inst := submittedInstance s }

/-- `registerInstance` (engine.go lines 95-112): clear `InstanceId`, attach the
owning `ServiceId`, submit the create-instance request; on error or non-success
reply return an error (the instance id stays cleared); on success store the
returned instance id. -/
def registerInstance {σ : Type} (c : Collab σ) (s : CoreState) (w : σ) :
    Outcome × CoreState × σ :=
  match c.regInst (submittedInstance s) w with
  | ((_, some e), w1) => (.err e, clearedState s, w1)
  | ((none, none), w1) => (.panic, clearedState s, w1)
  | ((some respI, none), w1) =>
    if respI.response.code ≠ ResponseSuccess then
      (.err (.registryMsg respI.response.message), clearedState s, w1)
    else
      (.ok,
        { clearedState s with
            inst := { submittedInstance s with instanceId := respI.instanceId } },
        w1)

/-- `selfRegister` (engine.go lines 54-62): `registerService` then, only on
success, `registerInstance`. -/
def selfRegister {σ : Type} (c : Collab σ) (s : CoreState) (w : σ) :
    Outcome × CoreState × σ :=
  match registerService c s w with
  | (.ok, s1, w1) => registerInstance c s1 w1
  | r => r

/-- `selfHeartBeat` (engine.go lines 114-130): send a renew for the current
instance; success is silent, an error or a non-success reply returns an error;
the core state is never written. -/
def selfHeartBeat {σ : Type} (c : Collab σ) (s : CoreState) (w : σ) :
    Outcome × CoreState × σ :=
  match c.heartbeat s.inst w with
  | ((_, some e), w1) => (.err e, s, w1)
  | ((none, none), w1) => (.panic, s, w1)
  | ((some respI, none), w1) =>
    if respI.response.code = ResponseSuccess then (.ok, s, w1)
    else (.err (.registryMsg respI.response.message), s, w1)

/-- `SelfUnregister` (engine.go lines 154-173): no-op returning nil when
`InstanceId` is empty; otherwise remove the instance, returning an error when
the call fails or the reply code is non-success. -/
def selfUnregister {σ : Type} (c : Collab σ) (s : CoreState) (w : σ) :
    Outcome × CoreState × σ :=
  if s.inst.instanceId = "" then (.ok, s, w)
  else
    match c.unregInst s.inst w with
    | ((_, some e), w1) => (.err e, s, w1)
    | ((none, none), w1) => (.panic, s, w1)
    | ((some respI, none), w1) =>
      if respI.response.code ≠ ResponseSuccess then
        (.err (.registryMsg ("unregister service center instance[" ++
            s.inst.serviceId ++ "/" ++ s.inst.instanceId ++ "] failed, " ++
            respI.response.message)), s, w1)
      else (.ok, s, w1)

/-- A registry-affecting action, recording the request the engine submitted:
used to observe which collaborator calls an execution makes, and with which
request data. -/
inductive Action where
  | existQ (svc : MicroService)
  | getOne (serviceId : String)
  | createSvc (svc : MicroService)
  | regInst (inst : MicroServiceInstance)
  | heartbeat (inst : MicroServiceInstance)
  | unregInst (inst : MicroServiceInstance)
  deriving DecidableEq, Repr

/-- `true` on the heartbeat (renew) action. -/
def Action.isHeartbeat : Action → Bool
  | .heartbeat _ => true
  | _ => false

/-- `true` on the remove-instance action. -/
def Action.isUnregInst : Action → Bool
  | .unregInst _ => true
  | _ => false

/-- `true` on the create-service action. -/
def Action.isCreateSvc : Action → Bool
  | .createSvc _ => true
  | _ => false

/-- Instrument a collaborator so the world also accumulates the list of
registry-affecting actions performed, in order. -/
def withTrace {σ : Type} (c : Collab σ) : Collab (σ × List Action) :=
  { existQ := fun m ⟨w, l⟩ => let (r, w1) := c.existQ m w; (r, (w1, l ++ [.existQ m]))
    getOne := fun i ⟨w, l⟩ => let (r, w1) := c.getOne i w; (r, (w1, l ++ [.getOne i]))
    createSvc := fun m ⟨w, l⟩ => let (r, w1) := c.createSvc m w; (r, (w1, l ++ [.createSvc m]))
    regInst := fun i ⟨w, l⟩ => let (r, w1) := c.regInst i w; (r, (w1, l ++ [.regInst i]))
    heartbeat := fun i ⟨w, l⟩ => let (r, w1) := c.heartbeat i w; (r, (w1, l ++ [.heartbeat i]))
    unregInst := fun i ⟨w, l⟩ => let (r, w1) := c.unregInst i w; (r, (w1, l ++ [.unregInst i])) }

/-!
The heartbeat loop `autoSelfHeartBeat` (engine.go lines 132-152) runs in a
background goroutine.  Each pass through the loop blocks on a
`select { case <-ctx.Done(); case <-time.After(interval) }`: the wait point.
A fresh timer is created on every pass, so once the process-wide context is
cancelled, `ctx.Done()` is the ready channel at the next wait point and the
select takes the `return` branch.  We embed the wait point's resolution as a
`LoopEvent` input: `done` when cancellation has been delivered, `tick` when
the timer fired first.
-/

/-- Resolution of the loop's `select` wait point. -/
inductive LoopEvent where
  | done
  | tick
  deriving DecidableEq, Repr

/-- Result of one pass of the heartbeat loop body. -/
inductive LoopStep where
  | stop
  | next
  | crashed
  deriving DecidableEq, Repr

/-- One pass of `autoSelfHeartBeat`'s loop body: on `done` return immediately
(no action); on `tick` run `selfHeartBeat`; when it succeeds continue; when it
errors run `selfRegister` as recovery, log any recovery error, and continue. -/
def loopIter {σ : Type} (c : Collab σ) (ev : LoopEvent) (s : CoreState) (w : σ) :
    LoopStep × CoreState × σ :=
  match ev with
  | .done => (.stop, s, w)
  | .tick =>
    match selfHeartBeat c s w with
    | (.ok, s1, w1) => (.next, s1, w1)
    | (.panic, s1, w1) => (.crashed, s1, w1)
    | (.err _, s1, w1) =>
      match selfRegister c s1 w1 with
      | (.panic, s2, w2) => (.crashed, s2, w2)
      | (_, s2, w2) => (.next, s2, w2)

/-- Run the heartbeat loop over a finite prefix of wait-point resolutions,
stopping at `return` (cancellation) or a crash. -/
def loopRun {σ : Type} (c : Collab σ) : List LoopEvent → CoreState → σ → CoreState × σ
  | [], s, w => (s, w)
  | ev :: evs, s, w =>
    match loopIter c ev s w with
    | (.next, s1, w1) => loopRun c evs s1 w1
    | (_, s1, w1) => (s1, w1)

/-!  The version upgrade coordinator `UpgradeVersion` (engine.go lines 185-205). -/

/-- Environment of one `UpgradeVersion` call: the results the collaborators
would give it — `mux.Lock(mux.GlobalLock)`, `needUpgrade(ctx)`, the
`UpgradeServerVersion` write, and `lock.Unlock()`. -/
structure UpgradeEnv where
  lockAcquire : Option GoErr
  needUpgrade : Bool
  writeVersion : Option GoErr
  unlock : Option GoErr
  deriving DecidableEq, Repr

/-- How an `UpgradeVersion` call ends: a normal return carrying a Go error or
nil, or process termination via `os.Exit`. -/
inductive UpOutcome where
  | ret (e : Option GoErr)
  | exited (code : Nat)
  deriving DecidableEq, Repr

/-- Observable record of one `UpgradeVersion` call: how many times
`lock.Unlock()` was invoked, how many times the version write was attempted,
and how the call ended. -/
structure UpgradeRun where
  unlocks : Nat
  writes : Nat
  outcome : UpOutcome
  deriving DecidableEq, Repr

/-- `UpgradeVersion` (engine.go lines 185-205): acquire the global lock (on
failure return the error); if `needUpgrade`, set the config version and write
it, calling `os.Exit(1)` when the write fails — note the Go code exits inside
the `if` block, before the `lock.Unlock()` line; otherwise fall through to
`lock.Unlock()`, log its error if any, and return it. -/
def upgradeVersion (env : UpgradeEnv) : UpgradeRun :=
  match env.lockAcquire with
  | some e => { unlocks := 0, writes := 0, outcome := .ret (some e) }
  | none =>
    if env.needUpgrade then
      match env.writeVersion with
      | some _ => { unlocks := 0, writes := 1, outcome := .exited 1 }
      | none => { unlocks := 1, writes := 1, outcome := .ret env.unlock }
    else
      { unlocks := 1, writes := 0, outcome := .ret env.unlock }

/-- Modelled from the spec: `needUpgrade` is not part of the excerpted source
(only its call site is); per the spec, it "reads ClusterVersionRecord and
compares against the running binary version", returning whether the persisted
cluster version is behind (strictly older than) the running one.  Versions are
dot-separated numeric strings compared lexicographically. -/
def verLt : List Nat → List Nat → Bool
  | [], [] => false
  | [], _ :: _ => true
  | _ :: _, [] => false
  | a :: as, b :: bs => if a < b then true else if b < a then false else verLt as bs

/-- Parse a dot-separated version string into its numeric components. -/
def parseVersion (s : String) : List Nat :=
  (s.splitOn ".").map (fun t => t.toNat?.getD 0)

/-- Modelled from the spec: `NeedsUpgrade` compares the persisted cluster
version against the running binary's version; `true` iff persisted is behind
running. -/
def needUpgradeSpec (persisted running : String) : Bool :=
  verLt (parseVersion persisted) (parseVersion running)

/-- One fixed reply per collaborator endpoint, for running the engine on
concrete inputs (each endpoint is called at most once per engine operation). -/
structure Replies where
  exist : GoRet ExistResp
  getOne : GoRet GetServiceResp
  create : GoRet CreateResp
  regInst : GoRet RegisterInstResp
  heartbeat : GoRet PlainResp
  unregInst : GoRet PlainResp

/-- The collaborator that answers every call with the fixed reply,
ignoring the request and leaving the world untouched. -/
def constCollab (r : Replies) : Collab Unit :=
  { existQ := fun _ w => (r.exist, w)
    getOne := fun _ w => (r.getOne, w)
    createSvc := fun _ w => (r.create, w)
    regInst := fun _ w => (r.regInst, w)
    heartbeat := fun _ w => (r.heartbeat, w)
    unregInst := fun _ w => (r.unregInst, w) }

/-- Two services match when their identity fields (environment, application,
name, version) coincide; the registry-assigned id is not part of the identity. -/
def sameIdentity (a b : MicroService) : Bool :=
  a.environment == b.environment && a.appId == b.appId &&
    a.serviceName == b.serviceName && a.version == b.version

/-- A non-success status code used by the modelled registry for "not found". -/
def ResponseFail : Nat := 1

/-- The service id the modelled registry assigns to the `n`-th created record. -/
def freshServiceId (n : Nat) : String := "sc-" ++ toString n

/-- The instance id the modelled registry assigns to the `n`-th created record. -/
def freshInstanceId (n : Nat) : String := "inst-" ++ toString n

/-- The all-empty service record, returned in a failed lookup's payload. -/
def emptyService : MicroService := ⟨"", "", "", "", ""⟩

/-- Modelled from the spec: the external Registry Client's backing store
(the storage engine is out of the excerpted source; §6 of the spec gives its
contract: `Exist`, `GetById`, `Create`, `CreateInstance` each return a record
plus a structured success/failure status).  Service records keyed by identity,
instance records keyed by (serviceId, instanceId), and a fresh-id counter. -/
structure Registry where
  services : List MicroService
  instances : List (String × String)
  nextId : Nat
  deriving DecidableEq, Repr

/-- Modelled from the spec: the Registry Client collaborator over the
`Registry` state.  `Exist` answers with the id of the record matching the
request's identity; `GetById` with the record carrying the requested id;
`Create`/`CreateInstance` insert a record under a fresh id; every reply is a
non-nil response with a structured status. -/
def regCollab : Collab Registry :=
  { existQ := fun m w =>
      match w.services.find? (fun r => sameIdentity r m) with
      | some r => ((some ⟨⟨ResponseSuccess, ""⟩, r.serviceId⟩, none), w)
      | none => ((some ⟨⟨ResponseFail, "service does not exist"⟩, ""⟩, none), w)
    getOne := fun i w =>
      match w.services.find? (fun r => r.serviceId == i) with
      | some r => ((some ⟨⟨ResponseSuccess, ""⟩, r⟩, none), w)
      | none => ((some ⟨⟨ResponseFail, "service does not exist"⟩, emptyService⟩, none), w)
    createSvc := fun m w =>
      ((some ⟨⟨ResponseSuccess, ""⟩, freshServiceId w.nextId⟩, none),
        { w with
            services := w.services ++ [{ m with serviceId := freshServiceId w.nextId }]
            nextId := w.nextId + 1 })
    regInst := fun i w =>
      ((some ⟨⟨ResponseSuccess, ""⟩, freshInstanceId w.nextId⟩, none),
        { w with
            instances := w.instances ++ [(i.serviceId, freshInstanceId w.nextId)]
            nextId := w.nextId + 1 })
    heartbeat := fun i w =>
      if w.instances.contains (i.serviceId, i.instanceId) then
        ((some ⟨⟨ResponseSuccess, ""⟩⟩, none), w)
      else
        ((some ⟨⟨ResponseFail, "instance does not exist"⟩⟩, none), w)
    unregInst := fun i w =>
      if w.instances.contains (i.serviceId, i.instanceId) then
        ((some ⟨⟨ResponseSuccess, ""⟩⟩, none),
          { w with instances := w.instances.filter (fun p => p ≠ (i.serviceId, i.instanceId)) })
      else
        ((some ⟨⟨ResponseFail, "instance does not exist"⟩⟩, none), w) }

/-- Well-formedness of a registry state: identities are unique, service ids
are unique, and the id the fresh-id counter would produce next is unused. -/
def Registry.wf (w : Registry) : Prop :=
  (∀ a ∈ w.services, ∀ b ∈ w.services, sameIdentity a b → a = b) ∧
    (∀ a ∈ w.services, ∀ b ∈ w.services, a.serviceId = b.serviceId → a = b) ∧
    (∀ a ∈ w.services, a.serviceId ≠ freshServiceId w.nextId)

/-- Sample identity configuration, for concrete runs. -/
def sampleService : MicroService :=
  ⟨"production", "default", "SERVICECENTER", "2.0.0", ""⟩

/-- Sample instance configuration, for concrete runs. -/
def sampleInstance : MicroServiceInstance :=
  ⟨"", "", ["rest://127.0.0.1:30100/"], 30⟩

/-- Sample process identity state, for concrete runs. -/
def sampleState : CoreState := ⟨sampleService, sampleInstance⟩

/-- Replies in which the existence query succeeds but the lookup-by-id call
itself fails with a nil response, as a Go transport error would produce. -/
def nilLookupReplies : Replies :=
  { exist := (some ⟨⟨ResponseSuccess, ""⟩, "S1"⟩, none)
    getOne := (none, some (.transport ("context deadline exceeded")))
    create := (some ⟨⟨ResponseSuccess, ""⟩, "S2"⟩, none)
    regInst := (some ⟨⟨ResponseSuccess, ""⟩, "I1"⟩, none)
    heartbeat := (some ⟨⟨ResponseSuccess, ""⟩⟩, none)
    unregInst := (some ⟨⟨ResponseSuccess, ""⟩⟩, none) }

/-- Replies in which the heartbeat renewal reports non-success while the
registration endpoints all succeed. -/
def recoveryReplies : Replies :=
  { exist := (some ⟨⟨ResponseSuccess, ""⟩, "S1"⟩, none)
    getOne := (some ⟨⟨ResponseSuccess, ""⟩,
      { sampleService with serviceId := "S1" }⟩, none)
    create := (some ⟨⟨ResponseSuccess, ""⟩, "S2"⟩, none)
    regInst := (some ⟨⟨ResponseSuccess, ""⟩, "I1"⟩, none)
    heartbeat := (some ⟨⟨ResponseFail, ("instance does not exist")⟩⟩, none)
    unregInst := (some ⟨⟨ResponseSuccess, ""⟩⟩, none) }

/-- A registry already holding a matching record under id "S1", for the C3
scenario witness. -/
def registryS1 : Registry :=
  ⟨[{ sampleService with serviceId := "S1" }], [], 0⟩

/-!  Helper lemmas. -/

/-- If a member satisfies the predicate and every satisfying member equals it,
`find?` returns exactly it. -/
theorem find_mem_unique {α : Type} {p : α → Bool} {l : List α} {a : α}
    (ha : a ∈ l) (hp : p a = true) (uniq : ∀ x ∈ l, p x = true → x = a) :
    l.find? p = some a := by
  cases h : l.find? p with
  | none => exact absurd hp (by simpa using List.find?_eq_none.mp h a ha)
  | some x =>
    have hx := uniq x (List.mem_of_find?_eq_some h) (List.find?_some h)
    exact congrArg some hx

/-- If a member satisfies the predicate, `find?` returns some satisfying
member of the list. -/
theorem find_exists {α : Type} {p : α → Bool} {l : List α} {a : α}
    (ha : a ∈ l) (hp : p a = true) :
    ∃ x, l.find? p = some x ∧ x ∈ l ∧ p x = true := by
  cases h : l.find? p with
  | none => exact absurd hp (by simpa using List.find?_eq_none.mp h a ha)
  | some x => exact ⟨x, rfl, List.mem_of_find?_eq_some h, List.find?_some h⟩

/-- `find?` on a singleton whose element satisfies the predicate. -/
theorem find_singleton {α : Type} (p : α → Bool) (a : α) (h : p a = true) :
    [a].find? p = some a := by
  simp [List.find?, h]

/-- `sameIdentity` is reflexive. -/
theorem sameIdentity_refl (a : MicroService) : sameIdentity a a = true := by
  simp [sameIdentity]

/-- Changing only the registry-assigned id does not change the identity. -/
theorem sameIdentity_setId (a b : MicroService) (i : String) :
    sameIdentity a { b with serviceId := i } = sameIdentity a b := rfl

/-- `verLt` is irreflexive: no version is behind itself. -/
theorem verLt_irrefl : ∀ l : List Nat, verLt l l = false
  | [] => rfl
  | a :: as => by simp [verLt, verLt_irrefl as]

/-- A version equal to the running one is not behind it. -/
theorem needUpgradeSpec_self (v : String) : needUpgradeSpec v v = false :=
  verLt_irrefl _

/-- `selfHeartBeat` never writes the core identity state. -/
theorem selfHeartBeat_state {σ : Type} (c : Collab σ) (s : CoreState) (w : σ) :
    (selfHeartBeat c s w).2.1 = s := by
  unfold selfHeartBeat
  split
  · rfl
  · rfl
  · split
    · rfl
    · rfl

/-!  Claim theorems. -/

/-- C9: `selfHeartBeat` leaves the `ServiceIdentity` and `InstanceIdentity`
fields (service id, instance id, endpoints, health-check interval) unchanged,
whatever the renewal's outcome — success, error, or even a faulted call: the
whole core identity state is returned as it was. -/
theorem selfHeartBeat_preserves_identity {σ : Type} (c : Collab σ)
    (s : CoreState) (w : σ) :
    (selfHeartBeat c s w).2.1.service.serviceId = s.service.serviceId ∧
      (selfHeartBeat c s w).2.1.inst.instanceId = s.inst.instanceId ∧
      (selfHeartBeat c s w).2.1.inst.endpoints = s.inst.endpoints ∧
      (selfHeartBeat c s w).2.1.inst.healthIntervalSec = s.inst.healthIntervalSec ∧
      (selfHeartBeat c s w).2.1 = s := by
  rw [selfHeartBeat_state]
  exact ⟨rfl, rfl, rfl, rfl, rfl⟩

/-- C5: when `UpgradeVersion` acquires the lock and the persisted cluster
version equals the running binary's version (so `needUpgrade` reports false),
no version write is performed, the lock is released once, and the call returns
no error given that the release succeeds. -/
theorem upgradeVersion_no_upgrade_noop (env : UpgradeEnv)
    (persisted running : String)
    (hn : env.needUpgrade = needUpgradeSpec persisted running)
    (heq : persisted = running)
    (hlock : env.lockAcquire = none)
    (hunlock : env.unlock = none) :
    upgradeVersion env = { unlocks := 1, writes := 0, outcome := .ret none } := by
  subst heq
  have hfalse : env.needUpgrade = false := by rw [hn, needUpgradeSpec_self]
  unfold upgradeVersion
  rw [hlock, hfalse, hunlock]
  simp

/-- Witness for C5 at persisted = running = "2.0". -/
theorem upgradeVersion_no_upgrade_noop_witness :
    upgradeVersion ⟨none, needUpgradeSpec "2.0" "2.0", none, none⟩ =
      { unlocks := 1, writes := 0, outcome := .ret none } :=
  upgradeVersion_no_upgrade_noop _ "2.0" "2.0" rfl rfl rfl rfl

/-- C1 counterexample: with the lock acquired, an upgrade needed and the
version write failing, `UpgradeVersion` reaches `os.Exit(1)` inside the `if`
block — before the `lock.Unlock()` line — so the lock is released zero times,
not exactly once as the claim states for the fatal branch. -/
theorem upgradeVersion_fatal_skips_unlock :
    (upgradeVersion ⟨none, true, some (.transport ("etcd put failed")), none⟩).unlocks = 0 ∧
      (upgradeVersion ⟨none, true, some (.transport ("etcd put failed")), none⟩).unlocks ≠ 1 ∧
      (upgradeVersion ⟨none, true, some (.transport ("etcd put failed")), none⟩).outcome
        = .exited 1 := by
  refine ⟨rfl, ?_, rfl⟩
  decide

/-- C1 (amended): once the lock is acquired, `UpgradeVersion` releases it
exactly once on every path on which the call returns — the write succeeded or
the upgrade was skipped — but on the fatal branch (upgrade needed and the
version write failed) the process terminates via `os.Exit(1)` without
releasing the lock. -/
theorem upgradeVersion_lock_discipline (env : UpgradeEnv)
    (hl : env.lockAcquire = none) :
    (env.needUpgrade = false →
        (upgradeVersion env).unlocks = 1 ∧
          (upgradeVersion env).outcome = .ret env.unlock) ∧
      (env.needUpgrade = true → env.writeVersion = none →
        (upgradeVersion env).unlocks = 1 ∧ (upgradeVersion env).writes = 1 ∧
          (upgradeVersion env).outcome = .ret env.unlock) ∧
      (∀ e, env.needUpgrade = true → env.writeVersion = some e →
        (upgradeVersion env).unlocks = 0 ∧
          (upgradeVersion env).outcome = .exited 1) := by
  unfold upgradeVersion
  rw [hl]
  refine ⟨fun hnu => ?_, fun hnu hw => ?_, fun e hnu hw => ?_⟩
  · rw [hnu]; exact ⟨rfl, rfl⟩
  · rw [hnu, hw]; exact ⟨rfl, rfl, rfl⟩
  · rw [hnu, hw]; exact ⟨rfl, rfl⟩

/-- Witness for C1 (amended) on the skipped-upgrade path. -/
theorem upgradeVersion_lock_discipline_witness :
    (upgradeVersion ⟨none, false, none, none⟩).unlocks = 1 ∧
      (upgradeVersion ⟨none, false, none, none⟩).outcome = .ret none :=
  (upgradeVersion_lock_discipline ⟨none, false, none, none⟩ rfl).1 rfl

/-- The traced `registerInstance` run equals the untraced one and appends
exactly one create-instance action, carrying the submitted instance. -/
theorem registerInstance_trace {σ : Type} (c : Collab σ) (s : CoreState)
    (w : σ) (l : List Action) :
    registerInstance (withTrace c) s (w, l) =
      ((registerInstance c s w).1, (registerInstance c s w).2.1,
        ((registerInstance c s w).2.2, l ++ [.regInst (submittedInstance s)])) := by
  unfold registerInstance withTrace
  rcases h : c.regInst (submittedInstance s) w with ⟨⟨r?, e?⟩, w1⟩
  rcases e? with _ | e
  · rcases r? with _ | resp
    · simp [h]
    · by_cases hc : resp.response.code = ResponseSuccess <;> simp [h, hc]
  · cases r? <;> simp [h]

/-- C6: every `registerInstance` call submits the instance with its id set to
the empty string and its service id set to the owning service's id; a
non-success reply yields an error carrying the registry-supplied message with
the instance id left empty (the cleared state); a transport error likewise
leaves it empty; only a success reply stores the returned instance id. -/
theorem registerInstance_spec {σ : Type} (c : Collab σ) (s : CoreState) (w : σ) :
    ((submittedInstance s).instanceId = "" ∧
        (submittedInstance s).serviceId = s.service.serviceId) ∧
      (registerInstance (withTrace c) s (w, [])).2.2.2
          = [.regInst (submittedInstance s)] ∧
      (∀ resp w1, c.regInst (submittedInstance s) w = ((some resp, none), w1) →
        resp.response.code ≠ ResponseSuccess →
        registerInstance c s w =
          (.err (.registryMsg resp.response.message), clearedState s, w1)) ∧
      (∀ e r w1, c.regInst (submittedInstance s) w = ((r, some e), w1) →
        registerInstance c s w = (.err e, clearedState s, w1)) ∧
      (∀ resp w1, c.regInst (submittedInstance s) w = ((some resp, none), w1) →
        resp.response.code = ResponseSuccess →
        registerInstance c s w =
          (.ok,
            { clearedState s with
                inst := { submittedInstance s with instanceId := resp.instanceId } },
            w1)) := by
  refine ⟨⟨rfl, rfl⟩, ?_, ?_, ?_, ?_⟩
  · rw [registerInstance_trace]
    rfl
  · intro resp w1 hr hc
    unfold registerInstance
    rw [hr]
    simp [hc]
  · intro e r w1 hr
    unfold registerInstance
    rw [hr]
    cases r <;> rfl
  · intro resp w1 hr hc
    unfold registerInstance
    rw [hr]
    simp [hc]

/-- Witness for C6: a success reply stores the returned instance id. -/
theorem registerInstance_spec_witness :
    registerInstance
        (constCollab
          { exist := (some ⟨⟨ResponseSuccess, ""⟩, "S1"⟩, none)
            getOne := (some ⟨⟨ResponseSuccess, ""⟩, sampleService⟩, none)
            create := (some ⟨⟨ResponseSuccess, ""⟩, "S2"⟩, none)
            regInst := (some ⟨⟨ResponseSuccess, ""⟩, "I1"⟩, none)
            heartbeat := (some ⟨⟨ResponseSuccess, ""⟩⟩, none)
            unregInst := (some ⟨⟨ResponseSuccess, ""⟩⟩, none) })
        sampleState () =
      (.ok,
        { clearedState sampleState with
            inst := { submittedInstance sampleState with instanceId := "I1" } },
        ()) :=
  (registerInstance_spec _ sampleState ()).2.2.2.2 ⟨⟨ResponseSuccess, ""⟩, "I1"⟩ ()
    rfl rfl

/-- C7: `SelfUnregister` with an empty instance id returns no error and
performs no registry operation; with a non-empty instance id it issues the
remove-instance request and returns an error exactly when the call fails or
the reply is non-success. -/
theorem selfUnregister_spec {σ : Type} (c : Collab σ) (s : CoreState) (w : σ) :
    (s.inst.instanceId = "" →
        selfUnregister c s w = (.ok, s, w) ∧
          (selfUnregister (withTrace c) s (w, [])).2.2.2 = []) ∧
      (s.inst.instanceId ≠ "" →
        (∀ e r w1, c.unregInst s.inst w = ((r, some e), w1) →
          (selfUnregister c s w).1 = .err e) ∧
        (∀ resp w1, c.unregInst s.inst w = ((some resp, none), w1) →
          ((selfUnregister c s w).1.isErr = true ↔
            resp.response.code ≠ ResponseSuccess))) := by
  constructor
  · intro hempty
    unfold selfUnregister withTrace
    rw [hempty]
    exact ⟨rfl, rfl⟩
  · intro hne
    constructor
    · intro e r w1 hr
      unfold selfUnregister
      rw [if_neg hne, hr]
      cases r <;> rfl
    · intro resp w1 hr
      unfold selfUnregister
      rw [if_neg hne, hr]
      by_cases hc : resp.response.code = ResponseSuccess <;>
        simp [hc, Outcome.isErr]

/-- Witness for C7: deregistration with an empty instance id is a no-op. -/
theorem selfUnregister_spec_witness :
    selfUnregister
        (constCollab
          { exist := (none, some (.transport ("down")))
            getOne := (none, some (.transport ("down")))
            create := (none, some (.transport ("down")))
            regInst := (none, some (.transport ("down")))
            heartbeat := (none, some (.transport ("down")))
            unregInst := (none, some (.transport ("down"))) })
        sampleState () = (.ok, sampleState, ()) :=
  ((selfUnregister_spec _ sampleState ()).1 rfl).1

/-- C2: when the existence query reports that a matching service record
already exists and the subsequent lookup by its id answers with a non-success
status (the lookup's own error value being irrelevant — the code never checks
it), `registerService` returns `ErrServiceNotExists` and leaves the core
state untouched: the identity is not adopted. -/
theorem registerService_lookup_failure {σ : Type} (c : Collab σ)
    (s : CoreState) (w : σ) (respE : ExistResp) (w1 : σ)
    (hE : c.existQ s.service w = ((some respE, none), w1))
    (hEcode : respE.response.code = ResponseSuccess)
    (respG : GetServiceResp) (eG : Option GoErr) (w2 : σ)
    (hG : c.getOne respE.serviceId w1 = ((some respG, eG), w2))
    (hGcode : respG.response.code ≠ ResponseSuccess) :
    registerService c s w = (.err .serviceNotExists, s, w2) := by
  unfold registerService
  rw [hE]
  simp only [hEcode, if_pos rfl, hG]
  simp [hGcode]

/-- Witness for C2: existence reports a match, the lookup replies
non-success, and `registerService` returns `ErrServiceNotExists`. -/
theorem registerService_lookup_failure_witness :
    registerService
        (constCollab
          { exist := (some ⟨⟨ResponseSuccess, ""⟩, "S1"⟩, none)
            getOne := (some ⟨⟨ResponseFail, ("service does not exist")⟩, emptyService⟩, none)
            create := (some ⟨⟨ResponseSuccess, ""⟩, "S2"⟩, none)
            regInst := (some ⟨⟨ResponseSuccess, ""⟩, "I1"⟩, none)
            heartbeat := (some ⟨⟨ResponseSuccess, ""⟩⟩, none)
            unregInst := (some ⟨⟨ResponseSuccess, ""⟩⟩, none) })
        sampleState () = (.err .serviceNotExists, sampleState, ()) :=
  registerService_lookup_failure _ sampleState () ⟨⟨ResponseSuccess, ""⟩, "S1"⟩ ()
    rfl rfl ⟨⟨ResponseFail, ("service does not exist")⟩, emptyService⟩ none ()
    rfl (by decide)

/-- C10 counterexample: with the existence query succeeding and the lookup
returning a nil response alongside its error, `registerService` dereferences
the nil reply (`respG.Response` at engine.go line 73 — the lookup's `err` is
never checked) and faults instead of returning an error. -/
theorem registerService_nil_lookup_faults :
    (registerService (constCollab nilLookupReplies) sampleState ()).1 = .panic ∧
      (registerService (constCollab nilLookupReplies) sampleState ()).1.isErr
        = false :=
  ⟨rfl, rfl⟩

/-- C10 (amended): on the found-existing path `registerService` inspects the
lookup reply unconditionally; whenever that reply is non-nil the path
evaluates totally — `ErrServiceNotExists` on a non-success status, adoption on
success, never a fault — but a nil lookup reply is dereferenced and crashes
(see the counterexample), so totality holds only given a non-nil reply. -/
theorem registerService_total_nonnil_lookup {σ : Type} (c : Collab σ)
    (s : CoreState) (w : σ) (respE : ExistResp) (w1 : σ)
    (hE : c.existQ s.service w = ((some respE, none), w1))
    (hEcode : respE.response.code = ResponseSuccess)
    (respG : GetServiceResp) (eG : Option GoErr) (w2 : σ)
    (hG : c.getOne respE.serviceId w1 = ((some respG, eG), w2)) :
    (registerService c s w).1 ≠ .panic ∧
      (registerService c s w).1 =
        (if respG.response.code = ResponseSuccess then .ok
         else .err .serviceNotExists) := by
  unfold registerService
  rw [hE]
  simp only [hEcode, if_pos rfl, hG]
  by_cases hc : respG.response.code = ResponseSuccess <;> simp [hc]

/-- Witness for C10 (amended): a non-nil success lookup reply adopts. -/
theorem registerService_total_nonnil_lookup_witness :
    (registerService
        (constCollab
          { exist := (some ⟨⟨ResponseSuccess, ""⟩, "S1"⟩, none)
            getOne := (some ⟨⟨ResponseSuccess, ""⟩,
              { sampleService with serviceId := "S1" }⟩, none)
            create := (some ⟨⟨ResponseSuccess, ""⟩, "S2"⟩, none)
            regInst := (some ⟨⟨ResponseSuccess, ""⟩, "I1"⟩, none)
            heartbeat := (some ⟨⟨ResponseSuccess, ""⟩⟩, none)
            unregInst := (some ⟨⟨ResponseSuccess, ""⟩⟩, none) })
        sampleState ()).1 ≠ .panic ∧
      (registerService
        (constCollab
          { exist := (some ⟨⟨ResponseSuccess, ""⟩, "S1"⟩, none)
            getOne := (some ⟨⟨ResponseSuccess, ""⟩,
              { sampleService with serviceId := "S1" }⟩, none)
            create := (some ⟨⟨ResponseSuccess, ""⟩, "S2"⟩, none)
            regInst := (some ⟨⟨ResponseSuccess, ""⟩, "I1"⟩, none)
            heartbeat := (some ⟨⟨ResponseSuccess, ""⟩⟩, none)
            unregInst := (some ⟨⟨ResponseSuccess, ""⟩⟩, none) })
        sampleState ()).1 =
        (if (ResponseSuccess : Nat) = ResponseSuccess then Outcome.ok
         else Outcome.err .serviceNotExists) :=
  registerService_total_nonnil_lookup _ sampleState ()
    ⟨⟨ResponseSuccess, ""⟩, "S1"⟩ () rfl rfl
    ⟨⟨ResponseSuccess, ""⟩, { sampleService with serviceId := "S1" }⟩ none ()
    rfl

/-- The traced `selfHeartBeat` run equals the untraced one and appends exactly
one renew action. -/
theorem selfHeartBeat_trace {σ : Type} (c : Collab σ) (s : CoreState) (w : σ)
    (l : List Action) :
    selfHeartBeat (withTrace c) s (w, l) =
      ((selfHeartBeat c s w).1, (selfHeartBeat c s w).2.1,
        ((selfHeartBeat c s w).2.2, l ++ [.heartbeat s.inst])) := by
  unfold selfHeartBeat withTrace
  rcases h : c.heartbeat s.inst w with ⟨⟨r?, e?⟩, w1⟩
  rcases e? with _ | e
  · rcases r? with _ | resp
    · simp [h]
    · by_cases hc : resp.response.code = ResponseSuccess <;> simp [h, hc]
  · cases r? <;> simp [h]

/-- The traced `registerService` run equals the untraced one; the first action
it appends is the existence query, and none of the following ones is a renew
or a remove-instance. -/
theorem registerService_trace {σ : Type} (c : Collab σ) (s : CoreState) (w : σ)
    (l : List Action) :
    ∃ acts, registerService (withTrace c) s (w, l) =
        ((registerService c s w).1, (registerService c s w).2.1,
          ((registerService c s w).2.2, l ++ Action.existQ s.service :: acts)) ∧
      acts.all (fun a => !a.isHeartbeat && !a.isUnregInst) = true := by
  unfold registerService withTrace
  rcases hE : c.existQ s.service w with ⟨⟨rE, eE⟩, w1⟩
  rcases eE with _ | e
  · rcases rE with _ | respE
    · exact ⟨[], by simp [hE], rfl⟩
    · by_cases hEc : respE.response.code = ResponseSuccess
      · rcases hG : c.getOne respE.serviceId w1 with ⟨⟨rG, eG⟩, w2⟩
        rcases rG with _ | respG
        · exact ⟨[.getOne respE.serviceId], by simp [hE, hEc, hG], rfl⟩
        · by_cases hGc : respG.response.code = ResponseSuccess
          · exact ⟨[.getOne respE.serviceId], by simp [hE, hEc, hG, hGc], rfl⟩
          · exact ⟨[.getOne respE.serviceId], by simp [hE, hEc, hG, hGc], rfl⟩
      · rcases hC : c.createSvc s.service w1 with ⟨⟨rC, eC⟩, w2⟩
        rcases eC with _ | e
        · rcases rC with _ | respC
          · exact ⟨[.createSvc s.service], by simp [hE, hEc, hC], rfl⟩
          · by_cases hCc : respC.response.code = ResponseSuccess
            · exact ⟨[.createSvc s.service], by simp [hE, hEc, hC, hCc], rfl⟩
            · exact ⟨[.createSvc s.service], by simp [hE, hEc, hC, hCc], rfl⟩
        · cases rC <;> exact ⟨[.createSvc s.service], by simp [hE, hEc, hC], rfl⟩
  · cases rE <;> exact ⟨[], by simp [hE], rfl⟩

/-- The traced `selfRegister` run equals the untraced one; its first appended
action is the existence query and no appended action is a renew or a
remove-instance. -/
theorem selfRegister_trace {σ : Type} (c : Collab σ) (s : CoreState) (w : σ)
    (l : List Action) :
    ∃ acts, selfRegister (withTrace c) s (w, l) =
        ((selfRegister c s w).1, (selfRegister c s w).2.1,
          ((selfRegister c s w).2.2, l ++ Action.existQ s.service :: acts)) ∧
      acts.all (fun a => !a.isHeartbeat && !a.isUnregInst) = true := by
  obtain ⟨acts, htr, hall⟩ := registerService_trace c s w l
  rcases ho : registerService c s w with ⟨o, s1, w1⟩
  rw [ho] at htr
  simp only at htr
  unfold selfRegister
  rw [htr, ho]
  cases o with
  | ok =>
    refine ⟨acts ++ [.regInst (submittedInstance s1)], ?_, ?_⟩
    · show registerInstance (withTrace c) s1 (w1, l ++ Action.existQ s.service :: acts) =
        ((registerInstance c s1 w1).1, (registerInstance c s1 w1).2.1,
          ((registerInstance c s1 w1).2.2,
            l ++ Action.existQ s.service :: (acts ++ [.regInst (submittedInstance s1)])))
      rw [registerInstance_trace]
      simp
    · simp only [List.all_append, hall, Bool.true_and]
      rfl
  | err e => exact ⟨acts, rfl, hall⟩
  | panic => exact ⟨acts, rfl, hall⟩

/-- C4: in an iteration of the heartbeat loop in which the renewal returns an
error, the loop's very next registry-affecting action is the start of a full
re-registration — the service existence query, followed only by further
registration actions, never another renew — and the iteration continues the
loop (result `next`) whatever the re-registration's outcome, its failure being
only logged. -/
theorem heartbeat_failure_triggers_reregistration {σ : Type} (c : Collab σ)
    (s : CoreState) (w : σ)
    (hfail : (selfHeartBeat c s w).1.isErr = true)
    (hnp : (selfRegister c s (selfHeartBeat c s w).2.2).1 ≠ .panic) :
    (loopIter c .tick s w).1 = .next ∧
      (loopIter c .tick s w).2 = (selfRegister c s (selfHeartBeat c s w).2.2).2 ∧
      ∃ acts, (loopIter (withTrace c) .tick s (w, [])).2.2.2 =
          Action.heartbeat s.inst :: Action.existQ s.service :: acts ∧
        acts.all (fun a => !a.isHeartbeat) = true := by
  have hst := selfHeartBeat_state c s w
  have htr := selfHeartBeat_trace c s w []
  rcases hhb : selfHeartBeat c s w with ⟨o, s1, w1⟩
  rw [hhb] at hst htr hfail hnp
  simp only at hst htr hfail hnp
  rw [hst] at hhb htr
  cases o with
  | ok => simp [Outcome.isErr] at hfail
  | panic => simp [Outcome.isErr] at hfail
  | err e =>
    obtain ⟨acts, hsr, hall⟩ := selfRegister_trace c s w1 [.heartbeat s.inst]
    rcases ho2 : selfRegister c s w1 with ⟨o2, s2, w2⟩
    rw [ho2] at hsr hnp
    simp only at hsr hnp
    refine ⟨?_, ?_, ?_⟩
    · cases o2 with
      | panic => exact absurd rfl hnp
      | ok => simp [loopIter, hhb, ho2]
      | err e2 => simp [loopIter, hhb, ho2]
    · cases o2 with
      | panic => exact absurd rfl hnp
      | ok => simp [loopIter, hhb, ho2]
      | err e2 => simp [loopIter, hhb, ho2]
    · refine ⟨acts, ?_, ?_⟩
      · cases o2 with
        | panic => exact absurd rfl hnp
        | ok => simp [loopIter, htr, hsr]
        | err e2 => simp [loopIter, htr, hsr]
      · simp only [List.all_eq_true] at hall ⊢
        intro a ha
        have h2 := hall a ha
        simp only [Bool.and_eq_true] at h2
        exact h2.1

/-- Witness for C4: heartbeat replies non-success, recovery succeeds. -/
theorem heartbeat_failure_triggers_reregistration_witness :
    (loopIter (constCollab recoveryReplies) .tick sampleState ()).1 = .next :=
  (heartbeat_failure_triggers_reregistration (constCollab recoveryReplies)
    sampleState () rfl (by decide)).1

/-- One traced loop iteration only appends actions, and none of the appended
actions is a remove-instance. -/
theorem loopIter_trace_append {σ : Type} (c : Collab σ) (ev : LoopEvent)
    (s : CoreState) (w : σ) (l : List Action) :
    ∃ new, (loopIter (withTrace c) ev s (w, l)).2.2.2 = l ++ new ∧
      new.all (fun a => !a.isUnregInst) = true := by
  cases ev with
  | done => exact ⟨[], by simp [loopIter], rfl⟩
  | tick =>
    have htr := selfHeartBeat_trace c s w l
    rcases hhb : selfHeartBeat c s w with ⟨o, s1, w1⟩
    rw [hhb] at htr
    simp only at htr
    cases o with
    | ok => exact ⟨[.heartbeat s.inst], by simp [loopIter, htr], rfl⟩
    | panic => exact ⟨[.heartbeat s.inst], by simp [loopIter, htr], rfl⟩
    | err e =>
      obtain ⟨acts, hsr, hall⟩ := selfRegister_trace c s1 w1 (l ++ [.heartbeat s.inst])
      rcases ho2 : selfRegister c s1 w1 with ⟨o2, s2, w2⟩
      rw [ho2] at hsr
      simp only at hsr
      refine ⟨.heartbeat s.inst :: .existQ s1.service :: acts, ?_, ?_⟩
      · cases o2 <;> simp [loopIter, htr, hsr]
      · simp only [List.all_cons, Bool.and_eq_true, List.all_eq_true] at hall ⊢
        refine ⟨rfl, rfl, ?_⟩
        intro a ha
        exact (hall a ha).2

/-- Once the loop takes the cancellation branch, the remaining events are
never examined: the run equals the run cut at the cancellation point. -/
theorem loopRun_stop_after_done {σ : Type} (c : Collab σ) :
    ∀ (l1 l2 : List LoopEvent) (s : CoreState) (w : σ),
      loopRun c (l1 ++ LoopEvent.done :: l2) s w = loopRun c l1 s w := by
  intro l1
  induction l1 with
  | nil => intro l2 s w; rfl
  | cons ev l1 ih =>
    intro l2 s w
    show loopRun c (ev :: (l1 ++ LoopEvent.done :: l2)) s w = loopRun c (ev :: l1) s w
    unfold loopRun
    rcases h : loopIter c ev s w with ⟨st, s1, w1⟩
    cases st <;> simp [h, ih]

/-- Along any traced loop run, the accumulated actions never include a
remove-instance, provided none was accumulated to begin with. -/
theorem loopRun_trace_no_unreg {σ : Type} (c : Collab σ) :
    ∀ (evs : List LoopEvent) (s : CoreState) (w : σ) (l : List Action),
      l.all (fun a => !a.isUnregInst) = true →
      ((loopRun (withTrace c) evs s (w, l)).2.2).all (fun a => !a.isUnregInst)
        = true := by
  intro evs
  induction evs with
  | nil => intro s w l hl; exact hl
  | cons ev evs ih =>
    intro s w l hl
    obtain ⟨new, hnew, hall⟩ := loopIter_trace_append c ev s w l
    rcases hit : loopIter (withTrace c) ev s (w, l) with ⟨st, s1, w1, l1⟩
    rw [hit] at hnew
    simp only at hnew
    subst hnew
    have hl1 : (l ++ new).all (fun a => !a.isUnregInst) = true := by
      rw [List.all_append, hl, hall]
      rfl
    unfold loopRun
    rw [hit]
    cases st with
    | next => exact ih s1 w1 (l ++ new) hl1
    | stop => exact hl1
    | crashed => exact hl1

/-- C8: the heartbeat loop observes cancellation at its wait point — taking
the `done` branch performs no registry action and stops the loop — every event
after the cancellation point is ignored (so no further renew, re-registration
or remove-instance happens), and no run of the loop ever performs a
remove-instance action at all: deregistration is a separate shutdown step. -/
theorem heartbeat_loop_cancellation {σ : Type} (c : Collab σ) (s : CoreState)
    (w : σ) :
    loopIter c .done s w = (.stop, s, w) ∧
      (∀ l1 l2, loopRun c (l1 ++ LoopEvent.done :: l2) s w = loopRun c l1 s w) ∧
      (∀ evs, ((loopRun (withTrace c) evs s (w, [])).2.2).all
          (fun a => !a.isUnregInst) = true) :=
  ⟨rfl, fun l1 l2 => loopRun_stop_after_done c l1 l2 s w,
    fun evs => loopRun_trace_no_unreg c evs s w [] rfl⟩

/-- Over the modelled registry, `registerService` on a found existing record
adopts the record the id lookup returns and leaves the registry unchanged. -/
theorem regCollab_registerService_found (s : CoreState) (w : Registry)
    (e x : MicroService)
    (hfind : w.services.find? (fun r => sameIdentity r s.service) = some e)
    (hx : w.services.find? (fun r => r.serviceId == e.serviceId) = some x) :
    registerService regCollab s w = (.ok, { s with service := x }, w) := by
  unfold registerService regCollab
  simp [hfind, hx]

/-- Over the modelled registry, `registerService` with no matching record
creates one under a fresh id, stores that id, and appends the record. -/
theorem regCollab_registerService_notfound (s : CoreState) (w : Registry)
    (hfind : w.services.find? (fun r => sameIdentity r s.service) = none) :
    registerService regCollab s w =
      (.ok,
        { s with service := { s.service with serviceId := freshServiceId w.nextId } },
        { w with
            services :=
              w.services ++ [{ s.service with serviceId := freshServiceId w.nextId }]
            nextId := w.nextId + 1 }) := by
  unfold registerService regCollab
  simp [hfind, ResponseFail, ResponseSuccess]

/-- Over the modelled registry, `registerInstance` always succeeds, storing a
fresh instance id and appending the instance record. -/
theorem regCollab_registerInstance (s : CoreState) (w : Registry) :
    registerInstance regCollab s w =
      (.ok,
        { s with
            inst := { submittedInstance s with instanceId := freshInstanceId w.nextId } },
        { w with
            instances := w.instances ++ [(s.service.serviceId, freshInstanceId w.nextId)]
            nextId := w.nextId + 1 }) := by
  unfold registerInstance regCollab
  simp [ResponseSuccess]
  exact ⟨rfl, rfl⟩

/-- When `registerService` succeeds, `selfRegister` continues with
`registerInstance` from the updated state. -/
theorem selfRegister_of_service_ok {σ : Type} (c : Collab σ) (s t : CoreState)
    (w v : σ) (h : registerService c s w = (.ok, t, v)) :
    selfRegister c s w = registerInstance c t v := by
  unfold selfRegister
  rw [h]

/-- Traced variant of the found-existing `registerService` computation over
the modelled registry: the actions are the existence query then the lookup. -/
theorem regCollab_registerService_found_tr (s : CoreState) (w : Registry)
    (e x : MicroService) (l : List Action)
    (hfind : w.services.find? (fun r => sameIdentity r s.service) = some e)
    (hx : w.services.find? (fun r => r.serviceId == e.serviceId) = some x) :
    registerService (withTrace regCollab) s (w, l) =
      (.ok, { s with service := x },
        (w, l ++ [.existQ s.service, .getOne e.serviceId])) := by
  unfold registerService withTrace regCollab
  simp [hfind, hx]

/-- Idempotence of `selfRegister` over a well-formed modelled registry: two
consecutive successful runs adopt the same service id. -/
theorem selfRegister_idem (s : CoreState) (w : Registry) (hwf : w.wf)
    (s1 : CoreState) (w1 : Registry) (s2 : CoreState) (w2 : Registry)
    (h1 : selfRegister regCollab s w = (.ok, s1, w1))
    (h2 : selfRegister regCollab s1 w1 = (.ok, s2, w2)) :
    s2.service.serviceId = s1.service.serviceId := by
  obtain ⟨hid, hsid, hfresh⟩ := hwf
  cases hfa : w.services.find? (fun r => sameIdentity r s.service) with
  | some e =>
    obtain ⟨x, hfx, hxmem, hxp⟩ :=
      find_exists (p := fun r => r.serviceId == e.serviceId)
        (List.mem_of_find?_eq_some hfa) (beq_self_eq_true e.serviceId)
    have hreg1 := regCollab_registerService_found s w e x hfa hfx
    have hsr1 := selfRegister_of_service_ok regCollab s _ w w hreg1
    rw [regCollab_registerInstance] at hsr1
    rw [h1] at hsr1
    simp only [Prod.mk.injEq] at hsr1
    obtain ⟨-, hs1, hw1⟩ := hsr1
    have hfm : w1.services.find? (fun r => sameIdentity r s1.service) = some x := by
      rw [hw1, hs1]
      exact find_mem_unique hxmem (sameIdentity_refl x)
        (fun y hy hyx => hid y hy x hxmem hyx)
    obtain ⟨y, hfy0, hymem, hyp⟩ :=
      find_exists (p := fun r => r.serviceId == x.serviceId) hxmem
        (beq_self_eq_true x.serviceId)
    have hfy : w1.services.find? (fun r => r.serviceId == x.serviceId) = some y := by
      rw [hw1]
      exact hfy0
    have hreg2 := regCollab_registerService_found s1 w1 x y hfm hfy
    have hsr2 := selfRegister_of_service_ok regCollab s1 _ w1 w1 hreg2
    rw [regCollab_registerInstance] at hsr2
    rw [h2] at hsr2
    simp only [Prod.mk.injEq] at hsr2
    obtain ⟨-, hs2, hw2⟩ := hsr2
    rw [hs2, hs1]
    exact eq_of_beq hyp
  | none =>
    have hreg1 := regCollab_registerService_notfound s w hfa
    have hsr1 := selfRegister_of_service_ok regCollab s _ w _ hreg1
    rw [regCollab_registerInstance] at hsr1
    rw [h1] at hsr1
    simp only [Prod.mk.injEq] at hsr1
    obtain ⟨-, hs1, hw1⟩ := hsr1
    have hnone1 := List.find?_eq_none.mp hfa
    have hfm : w1.services.find? (fun r => sameIdentity r s1.service) =
        some { s.service with serviceId := freshServiceId w.nextId } := by
      rw [hw1, hs1]
      show (w.services ++ [{ s.service with serviceId := freshServiceId w.nextId }]).find?
          (fun r => sameIdentity r { s.service with serviceId := freshServiceId w.nextId }) =
        some { s.service with serviceId := freshServiceId w.nextId }
      rw [List.find?_append]
      have hleft : w.services.find?
          (fun r => sameIdentity r { s.service with serviceId := freshServiceId w.nextId })
          = none := by
        apply List.find?_eq_none.mpr
        intro r hr
        rw [sameIdentity_setId]
        exact hnone1 r hr
      rw [hleft,
        find_singleton (fun r => sameIdentity r
            { s.service with serviceId := freshServiceId w.nextId })
          { s.service with serviceId := freshServiceId w.nextId }
          (sameIdentity_refl { s.service with serviceId := freshServiceId w.nextId })]
      rfl
    have hfy : w1.services.find?
        (fun r => r.serviceId ==
          (MicroService.serviceId { s.service with serviceId := freshServiceId w.nextId })) =
        some { s.service with serviceId := freshServiceId w.nextId } := by
      rw [hw1]
      show (w.services ++ [{ s.service with serviceId := freshServiceId w.nextId }]).find?
          (fun r => r.serviceId == freshServiceId w.nextId) =
        some { s.service with serviceId := freshServiceId w.nextId }
      rw [List.find?_append]
      have hleft : w.services.find? (fun r => r.serviceId == freshServiceId w.nextId)
          = none := by
        apply List.find?_eq_none.mpr
        intro r hr
        intro hbeq
        exact hfresh r hr (eq_of_beq hbeq)
      rw [hleft]
      simp [List.find?, Option.or]
    have hreg2 := regCollab_registerService_found s1 w1
      { s.service with serviceId := freshServiceId w.nextId }
      { s.service with serviceId := freshServiceId w.nextId } hfm hfy
    have hsr2 := selfRegister_of_service_ok regCollab s1 _ w1 w1 hreg2
    rw [regCollab_registerInstance] at hsr2
    rw [h2] at hsr2
    simp only [Prod.mk.injEq] at hsr2
    obtain ⟨-, hs2, hw2⟩ := hsr2
    rw [hs2, hs1]

/-- Scenario helper: with a matching record already present under id "S1",
`selfRegister` over the modelled registry adopts "S1" and its action trace
contains no create-service call. -/
theorem selfRegister_scenario_S1 (s : CoreState) (w : Registry)
    (m : MicroService)
    (hfind : w.services.find? (fun r => sameIdentity r s.service) = some m)
    (hS1 : m.serviceId = "S1") :
    (selfRegister regCollab s w).2.1.service.serviceId = "S1" ∧
      ((selfRegister (withTrace regCollab) s (w, [])).2.2.2).all
        (fun a => !a.isCreateSvc) = true := by
  obtain ⟨x, hfx, hxmem, hxp⟩ :=
    find_exists (p := fun r => r.serviceId == m.serviceId)
      (List.mem_of_find?_eq_some hfind) (beq_self_eq_true m.serviceId)
  constructor
  · have hreg1 := regCollab_registerService_found s w m x hfind hfx
    have hsr1 := selfRegister_of_service_ok regCollab s _ w w hreg1
    rw [regCollab_registerInstance] at hsr1
    rw [hsr1]
    show x.serviceId = "S1"
    rw [eq_of_beq hxp, hS1]
  · have htr1 := regCollab_registerService_found_tr s w m x [] hfind hfx
    have htr2 := selfRegister_of_service_ok (withTrace regCollab) s _ (w, []) _ htr1
    rw [registerInstance_trace] at htr2
    rw [htr2]
    rfl

/-- C3: self-registration is idempotent on the service identity — over any
well-formed registry, two consecutive successful `selfRegister` runs adopt
the same service id — and when the registry already holds a matching record
with id "S1", `selfRegister` sets the service id to "S1" without ever
invoking the create-service operation. -/
theorem selfRegister_idempotent :
    (∀ (s : CoreState) (w : Registry), w.wf →
      ∀ (s1 : CoreState) (w1 : Registry) (s2 : CoreState) (w2 : Registry),
        selfRegister regCollab s w = (.ok, s1, w1) →
        selfRegister regCollab s1 w1 = (.ok, s2, w2) →
        s2.service.serviceId = s1.service.serviceId) ∧
      (∀ (s : CoreState) (w : Registry) (m : MicroService),
        w.services.find? (fun r => sameIdentity r s.service) = some m →
        m.serviceId = "S1" →
        (selfRegister regCollab s w).2.1.service.serviceId = "S1" ∧
          ((selfRegister (withTrace regCollab) s (w, [])).2.2.2).all
            (fun a => !a.isCreateSvc) = true) :=
  ⟨fun s w hwf s1 w1 s2 w2 h1 h2 => selfRegister_idem s w hwf s1 w1 s2 w2 h1 h2,
    fun s w m hfind hS1 => selfRegister_scenario_S1 s w m hfind hS1⟩

/-- Witness for C3 at a registry already holding "S1": the second run adopts
the same id as the first, and the id adopted is "S1". -/
theorem selfRegister_idempotent_witness :
    (selfRegister regCollab
        (selfRegister regCollab sampleState registryS1).2.1
        (selfRegister regCollab sampleState registryS1).2.2).2.1.service.serviceId =
      (selfRegister regCollab sampleState registryS1).2.1.service.serviceId ∧
      (selfRegister regCollab sampleState registryS1).2.1.service.serviceId = "S1" :=
  ⟨selfRegister_idempotent.1 sampleState registryS1
      (by unfold Registry.wf; decide) _ _ _ _ rfl rfl,
    (selfRegister_idempotent.2 sampleState registryS1
      { sampleService with serviceId := "S1" } rfl rfl).1⟩

end SCEngine


